import Mathlib

/-!
Verification development for the WebTestBot repository
(`python_bot/core/bot.py`, `python_bot/config/models.py`).

The Python code drives an external Playwright engine.  We model that engine
as an `Env` (environment/oracle) that fixes, for every external call the bot
makes during one run, whether the call returns normally or raises, and what
it returns.  Python exceptions are modelled as `Except String` values
carrying the exception message (`str(error)`); dict-valued error records
become the `ErrorEntry` structure; timestamps are omitted (no claim
mentions them) and durations are modelled as integers of milliseconds.
Every external call the bot actually performs is recorded in a trace of
`Ev` events, so that statements such as "the remaining steps are not
executed" or "each sub-resource is closed exactly once" are about the
trace of calls made.
-/

namespace WebTestBot

/-- Model of the `ActionResult` dataclass of `bot.py` (timestamp and `details` omitted:
`details` is never set anywhere in the code, and no claim mentions the
timestamp). -/
structure ActionResult where
  action_type : String
  status : String
  message : String
deriving Repr, DecidableEq

/-- One entry of `BotReport.errors`.  In Python these are plain dicts with
keys `type`, `message`, `timestamp`, and — only for `ACTION_ERROR` entries —
`action` (holding `action.get("type")`, which itself may be `None`).
`action = none` models the key being absent; `action = some none` models
`"action": None`. -/
structure ErrorEntry where
  etype : String
  action : Option (Option String)
  message : String
deriving Repr, DecidableEq

/-- Model of the `PageAnalysis` dataclass.  The `links` and `forms` payload lists are
carried opaquely in the Python record and never inspected by any claim;
they are omitted from the model. -/
structure PageAnalysis where
  title : String
  url : String
  link_count : Int
  form_count : Int
  button_count : Int
  input_count : Int
  image_count : Int
  has_service_worker : Bool
  viewport_width : Int
  viewport_height : Int
  scroll_height : Int
deriving Repr, DecidableEq

/-- Model of the `BotReport` dataclass.  `performance` is a string-keyed dict of
durations, modelled as an association list written by `perfSet`. -/
structure BotReport where
  success : Bool
  actions : List ActionResult
  errors : List ErrorEntry
  analysis : Option PageAnalysis
  performance : List (String × Nat)
deriving Repr, DecidableEq

/-- The `report = BotReport(success=False)` object built at the top of `run_test`. -/
def emptyReport : BotReport := ⟨false, [], [], none, []⟩

/-- Python dict assignment `d[k] = v` on the performance mapping. -/
def perfSet (m : List (String × Nat)) (k : String) (v : Nat) :
    List (String × Nat) :=
  if m.any (fun p => p.1 = k) then
    m.map (fun p => if p.1 = k then (k, v) else p)
  else m ++ [(k, v)]

/-- Python `d.get(k)` on the performance mapping. -/
def perfGet (m : List (String × Nat)) (k : String) : Option Nat :=
  (m.find? (fun p => p.1 = k)).map (fun p => p.2)

/-- A custom action: a Python dict with optional keys.  `atype` is
`action.get("type")`; `selector`/`text` model `action["selector"]` /
`action["text"]` (a missing key raises `KeyError`); `duration` models
`action.get("duration", 1000)`. -/
structure Action where
  atype : Option String
  selector : Option String
  text : Option String
  duration : Option Nat
deriving Repr, DecidableEq

/-- Python `str(x)` for an optional string (`None` prints as `"None"`). -/
def pyOptStr : Option String → String
  | none => "None"
  | some s => s

/-- A progress-update event passed to the `on_update` observer.  The code
passes dicts with a type and a message field; the extra payload
fields (`url`, `analysis`) are not consulted by any claim and are dropped. -/
structure Update where
  utype : String
  message : String
deriving Repr, DecidableEq

/-- The optional `on_update` callback.  A real Python callback can itself
raise, so it returns `Except String Unit`. -/
abbrev Obs := Option (Update → Except String Unit)

/-- Calling `on_update(u)` when present (`if on_update: on_update(...)`). -/
def notify (obs : Obs) (u : Update) : Except String Unit :=
  match obs with
  | none => .ok ()
  | some f => f u

/-- An observer whose callbacks never raise (this includes `obs = none`). -/
def ObsOk (obs : Obs) : Prop := ∀ u, notify obs u = .ok ()

/-- Whether an external call raised. -/
def raises (r : Except String Unit) : Bool :=
  match r with
  | .ok _ => false
  | .error _ => true

/-- The environment: the outcome of every external Playwright call made
during one run.  `gotoResult = .ok none` models `page.goto` returning
`None` (no response object); `.ok (some t)` models a response whose
`request.timing.get("responseEnd", 0)` is `t`.  `actionCallResult i` is
the outcome of the single page call (`click`/`fill`/`wait_for_timeout`)
made by the custom action at position `i` of the supplied list. -/
structure Env where
  startResult : Except String Unit
  launchResult : Except String Unit
  newContextResult : Except String Unit
  newPageResult : Except String Unit
  gotoResult : Except String (Option Nat)
  loadTime : Nat
  analyzeResult : Except String PageAnalysis
  scrollEvalResult : Except String Unit
  scrollWaitResult : Except String Unit
  actionCallResult : Nat → Except String Unit
  closePageResult : Except String Unit
  closeContextResult : Except String Unit
  closeBrowserResult : Except String Unit
  stopResult : Except String Unit

/-- Which of the four resource handles (`_page`, `_context`, `_browser`,
`_playwright`) are currently held (non-`None`). -/
structure BotState where
  page : Bool
  context : Bool
  browser : Bool
  playwright : Bool
deriving Repr, DecidableEq

/-- A freshly constructed `WebBot`: all four handles are `None`. -/
def freshState : BotState := ⟨false, false, false, false⟩

/-- All four handles held (the state right after a successful
initialization). -/
def allHeld : BotState := ⟨true, true, true, true⟩

/-- Trace events: one per external call the bot makes.  The close events
carry whether that close call raised (and was caught and logged). -/
inductive Ev where
  | pwStart : Ev
  | launch : Ev
  | newContext : Ev
  | newPage : Ev
  | goto (url : String) : Ev
  | analyze : Ev
  | scrollEval : Ev
  | scrollWait : Ev
  | click (selector : String) : Ev
  | fill (selector text : String) : Ev
  | waitFor (ms : Nat) : Ev
  | closePage (raised : Bool) : Ev
  | closeContext (raised : Bool) : Ev
  | closeBrowser (raised : Bool) : Ev
  | pwStop (raised : Bool) : Ev
deriving Repr, DecidableEq

/-- Number of events in a trace satisfying `p`. -/
def countEv (p : Ev → Bool) (t : List Ev) : Nat := t.countP p

def isClosePage : Ev → Bool
  | .closePage _ => true
  | _ => false

def isCloseContext : Ev → Bool
  | .closeContext _ => true
  | _ => false

def isCloseBrowser : Ev → Bool
  | .closeBrowser _ => true
  | _ => false

def isPwStop : Ev → Bool
  | .pwStop _ => true
  | _ => false

def isAnalyze : Ev → Bool
  | .analyze => true
  | _ => false

def isScrollEval : Ev → Bool
  | .scrollEval => true
  | _ => false

/-- Events emitted by custom actions (`page.click` / `page.fill` /
`page.wait_for_timeout` from `perform_action`). -/
def isCustomEv : Ev → Bool
  | .click _ => true
  | .fill _ _ => true
  | .waitFor _ => true
  | _ => false

/-- Model of `WebBot.cleanup`.  For each held sub-resource, in source order
`_page`, `_context`, `_browser`, `_playwright`: attempt its
`close()`/`stop()`; an exception is caught and logged as a warning, and
the handle is set to `None` in a `finally` block either way.  A handle
that is already `None` is skipped. -/
def cleanup (env : Env) (s : BotState) : BotState × List Ev :=
  let ev1 := if s.page then [Ev.closePage (raises env.closePageResult)] else []
  let s1 := if s.page then { s with page := false } else s
  let ev2 := if s1.context then [Ev.closeContext (raises env.closeContextResult)] else []
  let s2 := if s1.context then { s1 with context := false } else s1
  let ev3 := if s2.browser then [Ev.closeBrowser (raises env.closeBrowserResult)] else []
  let s3 := if s2.browser then { s2 with browser := false } else s2
  let ev4 := if s3.playwright then [Ev.pwStop (raises env.stopResult)] else []
  let s4 := if s3.playwright then { s3 with playwright := false } else s3
  (s4, ev1 ++ ev2 ++ ev3 ++ ev4)

/-- Model of `WebBot.initialize` (named `initializeBot` here).  Runs `cleanup`
first, then acquires playwright handle, browser, context and page in that
order; on any exception it logs, runs `cleanup` again and returns
`False`.  Returns the success flag, the new handle state, and the trace
of external calls made.  (The `if not ...: raise` guards after each
acquisition never fire: a successful call yields a live, truthy handle.
`set_default_timeout` is a non-failing local setter and emits no event.) -/
def initializeBot (env : Env) (s : BotState) : Bool × BotState × List Ev :=
  let c0 := cleanup env s
  match env.startResult with
  | .error _ =>
      let c1 := cleanup env c0.1
      (false, c1.1, c0.2 ++ [Ev.pwStart] ++ c1.2)
  | .ok _ =>
    let sA := { c0.1 with playwright := true }
    match env.launchResult with
    | .error _ =>
        let c1 := cleanup env sA
        (false, c1.1, c0.2 ++ [Ev.pwStart, Ev.launch] ++ c1.2)
    | .ok _ =>
      let sB := { sA with browser := true }
      match env.newContextResult with
      | .error _ =>
          let c1 := cleanup env sB
          (false, c1.1, c0.2 ++ [Ev.pwStart, Ev.launch, Ev.newContext] ++ c1.2)
      | .ok _ =>
        let sC := { sB with context := true }
        match env.newPageResult with
        | .error _ =>
            let c1 := cleanup env sC
            (false, c1.1,
              c0.2 ++ [Ev.pwStart, Ev.launch, Ev.newContext, Ev.newPage] ++ c1.2)
        | .ok _ =>
            (true, { sC with page := true },
              c0.2 ++ [Ev.pwStart, Ev.launch, Ev.newContext, Ev.newPage])

/-- Model of `WebBot.analyze_page`: raises `RuntimeError("Page not initialized")`
when `_page` is `None`, otherwise makes the single `page.evaluate`
introspection call whose outcome is `env.analyzeResult`. -/
def analyze_page (env : Env) (pageHeld : Bool) :
    Except String PageAnalysis × List Ev :=
  if pageHeld then (env.analyzeResult, [Ev.analyze])
  else (.error "Page not initialized", [])

/-- Model of `WebBot.perform_automated_actions`.  Returns without doing anything
when `_page` is `None`.  Otherwise, inside one `try`: scroll-evaluate,
`wait_for_timeout(1000)`, append the `SCROLL`/`SUCCESS` action result,
then call the observer; any exception in these (including one raised by
the observer) is caught and appended as an `AUTOMATION_ERROR` entry. -/
def perform_automated_actions (env : Env) (obs : Obs) (pageHeld : Bool)
    (report : BotReport) : BotReport × List Ev :=
  if !pageHeld then (report, []) else
  match env.scrollEvalResult with
  | .error e =>
      ({ report with errors := report.errors ++ [⟨"AUTOMATION_ERROR", none, e⟩] },
        [Ev.scrollEval])
  | .ok _ =>
    match env.scrollWaitResult with
    | .error e =>
        ({ report with errors := report.errors ++ [⟨"AUTOMATION_ERROR", none, e⟩] },
          [Ev.scrollEval, Ev.scrollWait])
    | .ok _ =>
      let r1 := { report with
        actions := report.actions ++ [⟨"SCROLL", "SUCCESS", "Scrolled to page middle"⟩] }
      match notify obs ⟨"action", "Page scroll test successful"⟩ with
      | .error e =>
          ({ r1 with errors := r1.errors ++ [⟨"AUTOMATION_ERROR", none, e⟩] },
            [Ev.scrollEval, Ev.scrollWait])
      | .ok _ => (r1, [Ev.scrollEval, Ev.scrollWait])

/-- Model of `WebBot.perform_action` for the custom action at position `i`.  May
raise: the first component is `some msg` when an exception escapes this
method (to be caught by the per-action handler in `run_test`).  The report is
returned as mutated so far (appends made before a later raise persist, as
the Python report object is mutated in place).  A missing `"selector"` /
`"text"` key raises `KeyError` before any page call (its Python message is
the quoted key name; modelled here as shown).  Unsupported kinds fall
through every branch without touching the report.  Every branch ends with
the `if on_update: on_update(...)` call, whose own exception also escapes
this method. -/
def perform_action (env : Env) (obs : Obs) (i : Nat) (a : Action)
    (pageHeld : Bool) (report : BotReport) :
    Option String × BotReport × List Ev :=
  if !pageHeld then (none, report, []) else
  let finish := fun (r : BotReport) (ev : List Ev) =>
    match notify obs ⟨"action", "Custom action executed: " ++ pyOptStr a.atype⟩ with
    | .ok _ => ((none : Option String), r, ev)
    | .error e => (some e, r, ev)
  if a.atype = some "click" then
    match a.selector with
    | none => (some "KeyError: selector", report, [])
    | some sel =>
      match env.actionCallResult i with
      | .error e => (some e, report, [Ev.click sel])
      | .ok _ =>
          finish
            { report with actions := report.actions ++
                [⟨"CUSTOM_CLICK", "SUCCESS", "Clicked " ++ sel⟩] }
            [Ev.click sel]
  else if a.atype = some "type" then
    match a.selector with
    | none => (some "KeyError: selector", report, [])
    | some sel =>
      match a.text with
      | none => (some "KeyError: text", report, [])
      | some tx =>
        match env.actionCallResult i with
        | .error e => (some e, report, [Ev.fill sel tx])
        | .ok _ =>
            finish
              { report with actions := report.actions ++
                  [⟨"CUSTOM_TYPE", "SUCCESS", "Typed into " ++ sel⟩] }
              [Ev.fill sel tx]
  else if a.atype = some "wait" then
    let d := a.duration.getD 1000
    match env.actionCallResult i with
    | .error e => (some e, report, [Ev.waitFor d])
    | .ok _ =>
        finish
          { report with actions := report.actions ++
              [⟨"WAIT", "SUCCESS",
                "Waited " ++ pyOptStr (a.duration.map toString) ++ "ms"⟩] }
          [Ev.waitFor d]
  else
    finish report []

/-- One iteration of the custom-action loop in `run_test`: `perform_action`
wrapped in the per-action `try/except` that appends an `ACTION_ERROR`
entry (with `"action": action.get("type")` and the exception message) and
continues. -/
def runAction (env : Env) (obs : Obs) (i : Nat) (a : Action)
    (pageHeld : Bool) (report : BotReport) : BotReport × List Ev :=
  match perform_action env obs i a pageHeld report with
  | (none, r, ev) => (r, ev)
  | (some e, r, ev) =>
      ({ r with errors := r.errors ++ [⟨"ACTION_ERROR", some a.atype, e⟩] }, ev)

/-- The whole `for action in actions:` loop of `run_test`, starting at
position `i`. -/
def runActions (env : Env) (obs : Obs) (pageHeld : Bool) :
    Nat → List Action → BotReport → BotReport × List Ev
  | _, [], r => (r, [])
  | i, a :: rest, r =>
      let step := runAction env obs i a pageHeld r
      let tail := runActions env obs pageHeld (i + 1) rest step.1
      (tail.1, step.2 ++ tail.2)

/-- The `try:` block of `run_test`: returns the report as accumulated, the
exception (if one escaped the block, to be handled by the `except`
branch), the handle state, and the trace so far.  Mirrors the source
line by line: initialize; raise on failed initialization; observer
`status` call; `goto` with load-time and optional response-time metric;
observer `navigation` call; `analyze_page`; observer `analysis` call;
`perform_automated_actions`; the custom-action loop; finally
`report.success = len(report.errors) == 0`. -/
def runTestTry (env : Env) (url : String) (actions : List Action)
    (obs : Obs) (s : BotState) :
    BotReport × Option String × BotState × List Ev :=
  let report := emptyReport
  let ini := initializeBot env s
  if !(ini.1 && ini.2.1.page) then
    (report, some "Browser initialization failed", ini.2.1, ini.2.2)
  else
    match notify obs ⟨"status", "Bot started, navigating..."⟩ with
    | .error e => (report, some e, ini.2.1, ini.2.2)
    | .ok _ =>
      match env.gotoResult with
      | .error e => (report, some e, ini.2.1, ini.2.2 ++ [Ev.goto url])
      | .ok respOpt =>
        let r1 := { report with
          performance := perfSet report.performance "load_time" env.loadTime }
        let r2 :=
          match respOpt with
          | some t => { r1 with performance := perfSet r1.performance "response_time" t }
          | none => r1
        match notify obs
            ⟨"navigation", "Page loaded (" ++ toString env.loadTime ++ "ms)"⟩ with
        | .error e => (r2, some e, ini.2.1, ini.2.2 ++ [Ev.goto url])
        | .ok _ =>
          let an := analyze_page env ini.2.1.page
          match an.1 with
          | .error e => (r2, some e, ini.2.1, ini.2.2 ++ [Ev.goto url] ++ an.2)
          | .ok a =>
            let r3 := { r2 with analysis := some a }
            match notify obs
                ⟨"analysis", "Page analyzed: " ++ toString a.link_count ++
                  " links, " ++ toString a.form_count ++ " forms"⟩ with
            | .error e => (r3, some e, ini.2.1, ini.2.2 ++ [Ev.goto url] ++ an.2)
            | .ok _ =>
              let pa := perform_automated_actions env obs ini.2.1.page r3
              let ra := runActions env obs ini.2.1.page 0 actions pa.1
              let r6 := { ra.1 with success := ra.1.errors.isEmpty }
              (r6, none, ini.2.1,
                ini.2.2 ++ [Ev.goto url] ++ an.2 ++ pa.2 ++ ra.2)

/-- The outcome of one `run_test` call.  `escaped = some e` means the call
raised exception `e` past its own boundary (the Python `finally` has run,
then the pending exception propagated to the caller); in that case the
`report` field records the report object as it stood (the caller never
receives it). -/
structure RunResult where
  report : BotReport
  escaped : Option String
  state : BotState
  trace : List Ev
deriving Repr

/-- Model of `WebBot.run_test`: the `try` body, then the `except Exception` branch
(append one `CRITICAL_ERROR` entry, then call the observer with the
`error` event — an exception raised by that call propagates after the
`finally`), then the `finally: await self.cleanup()`. -/
def run_test (env : Env) (url : String) (actions : List Action)
    (obs : Obs) (s : BotState) : RunResult :=
  let body := runTestTry env url actions obs s
  match body.2.1 with
  | none =>
      let c := cleanup env body.2.2.1
      ⟨body.1, none, c.1, body.2.2.2 ++ c.2⟩
  | some e =>
      let r1 := { body.1 with
        errors := body.1.errors ++ [⟨"CRITICAL_ERROR", none, e⟩] }
      let esc :=
        match notify obs ⟨"error", "Critical error: " ++ e⟩ with
        | .ok _ => (none : Option String)
        | .error e2 => some e2
      let c := cleanup env body.2.2.1
      ⟨r1, esc, c.1, body.2.2.2 ++ c.2⟩

/-! Derived characterizations used to state the claims. -/

/-- Whether `initialize` succeeds: all four acquisition calls return. -/
def initOk (env : Env) : Bool :=
  env.startResult.isOk && env.launchResult.isOk &&
    env.newContextResult.isOk && env.newPageResult.isOk

/-- The playwright engine handle is acquired iff `start()` returned. -/
def pwAcquired (env : Env) : Bool := env.startResult.isOk

/-- The browser is acquired iff `start()` and `launch()` returned. -/
def browserAcquired (env : Env) : Bool :=
  env.startResult.isOk && env.launchResult.isOk

/-- The context is acquired iff `start()`, `launch()` and `new_context()`
returned. -/
def contextAcquired (env : Env) : Bool :=
  env.startResult.isOk && env.launchResult.isOk && env.newContextResult.isOk

/-- The page is acquired iff all four acquisition calls returned. -/
def pageAcquired (env : Env) : Bool := initOk env

/-- The critical (run-ending) failure of a run under a non-raising
observer, if any: failed initialization, else a `goto` exception, else an
`analyze_page` exception.  `none` when the pipeline reaches the acting
phase. -/
def criticalOf (env : Env) : Option String :=
  if !initOk env then some "Browser initialization failed"
  else
    match env.gotoResult with
    | .error e => some e
    | .ok _ =>
      match env.analyzeResult with
      | .error e => some e
      | .ok _ => none

/-- Contribution of the automated-scroll step to the report, under a
non-raising observer: either one `AUTOMATION_ERROR` entry or one
`SCROLL`/`SUCCESS` action result. -/
def autoContrib (env : Env) : List ActionResult × List ErrorEntry :=
  match env.scrollEvalResult with
  | .error e => ([], [⟨"AUTOMATION_ERROR", none, e⟩])
  | .ok _ =>
    match env.scrollWaitResult with
    | .error e => ([], [⟨"AUTOMATION_ERROR", none, e⟩])
    | .ok _ => ([⟨"SCROLL", "SUCCESS", "Scrolled to page middle"⟩], [])

/-- The performance mapping after a successful navigation: the load-time
key is always present; the response-time key only when a response object
was returned. -/
def perfList (lt : Nat) (ro : Option Nat) : List (String × Nat) :=
  match ro with
  | some t => [("load_time", lt), ("response_time", t)]
  | none => [("load_time", lt)]

/-- Trace of the automated-scroll step: the scroll evaluation is always
attempted; the 1000ms wait only when the evaluation did not raise. -/
def autoEv (env : Env) : List Ev :=
  match env.scrollEvalResult with
  | .error _ => [Ev.scrollEval]
  | .ok _ => [Ev.scrollEval, Ev.scrollWait]

/-- What one custom action contributes to the report and trace: computed
from that action alone (its position `i`, its own fields, the outcome of
its own page call, the observer) — independently of every other action. -/
def actionContrib (env : Env) (obs : Obs) (i : Nat) (a : Action) :
    BotReport × List Ev :=
  runAction env obs i a true emptyReport

/-- Joint contribution of a custom-action list starting at position `i`:
the per-action contributions of `actionContrib`, concatenated. -/
def contribsList (env : Env) (obs : Obs) :
    Nat → List Action → List ActionResult × List ErrorEntry × List Ev
  | _, [] => ([], [], [])
  | i, a :: rest =>
      let c := actionContrib env obs i a
      let cs := contribsList env obs (i + 1) rest
      (c.1.actions ++ cs.1, c.1.errors ++ cs.2.1, c.2 ++ cs.2.2)

/-- Copy of `env` with the four cleanup-call outcomes replaced: used to state that
reports and run boundaries do not depend on whether any close call
raised. -/
def withCloseResults (env : Env) (a b c d : Except String Unit) : Env :=
  { env with closePageResult := a, closeContextResult := b,
             closeBrowserResult := c, stopResult := d }

/-! Configuration models (`python_bot/config/models.py`).  Pydantic
validates each `Field(ge=..., le=...)` bound at construction and rejects
(raises `ValidationError`) on violation; a rejected construction is
modelled as `none`.  Python ints are unbounded, hence `Int`. -/

/-- One pydantic int field check: `ge`/`le` bounds, `none` = no bound. -/
def fieldOk (v : Int) (lo hi : Option Int) : Bool :=
  (match lo with | some l => decide (l ≤ v) | none => true) &&
  (match hi with | some h => decide (v ≤ h) | none => true)

/-- Model of `ViewportConfig`: `width` in `[800, 3840]`, `height` in `[600, 2160]`. -/
structure ViewportConfig where
  width : Int
  height : Int
deriving Repr, DecidableEq

/-- Constructing a `ViewportConfig` with explicit values. -/
def mkViewportConfig (width height : Int) : Option ViewportConfig :=
  if fieldOk width (some 800) (some 3840) && fieldOk height (some 600) (some 2160)
  then some ⟨width, height⟩ else none

/-- Model of `BrowserConfig`: `timeout` in `[5000, 120000]`; `headless` and the
launch `args` list are unconstrained. -/
structure BrowserConfig where
  headless : Bool
  timeout : Int
  args : List String
deriving Repr, DecidableEq

/-- Constructing a `BrowserConfig` with explicit values. -/
def mkBrowserConfig (headless : Bool) (timeout : Int) (args : List String) :
    Option BrowserConfig :=
  if fieldOk timeout (some 5000) (some 120000)
  then some ⟨headless, timeout, args⟩ else none

/-- Model of `ConcurrencyConfig`: `max_bots` has `ge=1, le=100`; `min_bots` and
`default_bots` have `ge=1` and no `le` bound. -/
structure ConcurrencyConfig where
  max_bots : Int
  min_bots : Int
  default_bots : Int
deriving Repr, DecidableEq

/-- Constructing a `ConcurrencyConfig` with explicit values. -/
def mkConcurrencyConfig (max_bots min_bots default_bots : Int) :
    Option ConcurrencyConfig :=
  if fieldOk max_bots (some 1) (some 100) && fieldOk min_bots (some 1) none &&
      fieldOk default_bots (some 1) none
  then some ⟨max_bots, min_bots, default_bots⟩ else none

/-! Concrete fixtures for counterexamples and witnesses. -/

/-- A concrete page-analysis payload. -/
def pageAn : PageAnalysis :=
  ⟨"Home", "https://example.test/", 3, 1, 2, 2, 4, true, 1366, 768, 2000⟩

/-- An environment in which every external call succeeds. -/
def envOk : Env where
  startResult := .ok ()
  launchResult := .ok ()
  newContextResult := .ok ()
  newPageResult := .ok ()
  gotoResult := .ok (some 42)
  loadTime := 120
  analyzeResult := .ok pageAn
  scrollEvalResult := .ok ()
  scrollWaitResult := .ok ()
  actionCallResult := fun _ => .ok ()
  closePageResult := .ok ()
  closeContextResult := .ok ()
  closeBrowserResult := .ok ()
  stopResult := .ok ()

/-- All calls succeed, but the navigation returns no response object. -/
def envNoResp : Env := { envOk with gotoResult := .ok none }

/-- All calls succeed except the automated scroll evaluation. -/
def envScrollFail : Env := { envOk with scrollEvalResult := .error "scroll boom" }

/-- All calls succeed except navigation. -/
def envNavFail : Env := { envOk with gotoResult := .error "nav down" }

/-- All calls succeed except the page-introspection `evaluate` call. -/
def envAnalyzeFail : Env := { envOk with analyzeResult := .error "page closed" }

/-- All four cleanup calls raise; everything else succeeds. -/
def envCloseFail : Env :=
  withCloseResults envOk (.error "pc") (.error "cc") (.error "bc") (.error "sc")

/-- All calls succeed except the automated scroll evaluation and every
custom-action page call. -/
def envActFail : Env :=
  { envOk with scrollEvalResult := .error "scroll boom",
               actionCallResult := fun _ => .error "click boom" }

/-- An observer that raises exactly on the critical-`error` notification. -/
def obsErrOnError : Obs :=
  some fun u => if u.utype = "error" then .error "observer boom" else .ok ()

/-- An observer that raises exactly on the notification emitted for the
custom action of kind `hover`. -/
def obsErrOnHover : Obs :=
  some fun u =>
    if u.message = "Custom action executed: hover" then .error "observer boom"
    else .ok ()

/-- A custom action of unsupported kind. -/
def actHover : Action := ⟨some "hover", none, none, none⟩

/-- A supported click action. -/
def actClick : Action := ⟨some "click", some "#go", none, none⟩

/-! Helper lemmas. -/

theorem isOk_iff_eq_ok {r : Except String Unit} : r.isOk = true ↔ r = .ok () := by
  cases r with
  | error e => simp [Except.isOk, Except.toBool]
  | ok u => cases u; simp [Except.isOk, Except.toBool]

theorem cleanup_state (env : Env) (s : BotState) : (cleanup env s).1 = freshState := by
  obtain ⟨p, c, b, pw⟩ := s
  cases p <;> cases c <;> cases b <;> cases pw <;> rfl

theorem cleanup_fresh (env : Env) : cleanup env freshState = (freshState, []) := rfl

theorem cleanup_allHeld_trace (env : Env) :
    cleanup env allHeld =
      (freshState,
        [Ev.closePage (raises env.closePageResult),
         Ev.closeContext (raises env.closeContextResult),
         Ev.closeBrowser (raises env.closeBrowserResult),
         Ev.pwStop (raises env.stopResult)]) := rfl

theorem initOk_fields {env : Env} (h : initOk env = true) :
    env.startResult = .ok () ∧ env.launchResult = .ok () ∧
      env.newContextResult = .ok () ∧ env.newPageResult = .ok () := by
  unfold initOk at h
  simp only [Bool.and_eq_true] at h
  exact ⟨isOk_iff_eq_ok.mp h.1.1.1, isOk_iff_eq_ok.mp h.1.1.2,
    isOk_iff_eq_ok.mp h.1.2, isOk_iff_eq_ok.mp h.2⟩

theorem initBot_fst (env : Env) (s : BotState) :
    (initializeBot env s).1 = initOk env := by
  unfold initializeBot initOk
  cases env.startResult <;> cases env.launchResult <;>
    cases env.newContextResult <;> cases env.newPageResult <;>
    simp [Except.isOk, Except.toBool]

theorem initBot_state (env : Env) (s : BotState) :
    (initializeBot env s).2.1 = (if initOk env then allHeld else freshState) := by
  unfold initializeBot initOk
  cases env.startResult <;> cases env.launchResult <;>
    cases env.newContextResult <;> cases env.newPageResult <;>
    simp [Except.isOk, Except.toBool, cleanup_state, allHeld]

theorem initBot_ok_trace {env : Env} (h : initOk env = true) :
    initializeBot env freshState =
      (true, allHeld, [Ev.pwStart, Ev.launch, Ev.newContext, Ev.newPage]) := by
  obtain ⟨h1, h2, h3, h4⟩ := initOk_fields h
  simp [initializeBot, h1, h2, h3, h4, cleanup, allHeld, freshState]

theorem countEv_append (p : Ev → Bool) (t1 t2 : List Ev) :
    countEv p (t1 ++ t2) = countEv p t1 + countEv p t2 := by
  simp [countEv, List.countP_append]

theorem countEv_eq_zero {p : Ev → Bool} {t : List Ev} (h : ∀ e ∈ t, p e = false) :
    countEv p t = 0 := by
  unfold countEv
  rw [List.countP_eq_zero]
  intro a ha
  simp [h a ha]

theorem pa_spec (env : Env) (obs : Obs) (hobs : ObsOk obs) (r : BotReport) :
    perform_automated_actions env obs true r =
      ({ r with actions := r.actions ++ (autoContrib env).1,
                errors := r.errors ++ (autoContrib env).2 }, autoEv env) := by
  obtain ⟨su, ac, er, an, pf⟩ := r
  unfold perform_automated_actions autoContrib autoEv
  cases env.scrollEvalResult <;> cases env.scrollWaitResult <;> simp [hobs _]

theorem pa_trace (env : Env) (obs : Obs) (ph : Bool) (r : BotReport) :
    (perform_automated_actions env obs ph r).2 = [] ∨
      (perform_automated_actions env obs ph r).2 = [Ev.scrollEval] ∨
      (perform_automated_actions env obs ph r).2 = [Ev.scrollEval, Ev.scrollWait] := by
  unfold perform_automated_actions
  cases ph
  · simp
  · cases env.scrollEvalResult with
    | error e => simp
    | ok u =>
      cases env.scrollWaitResult with
      | error e2 => simp
      | ok u2 =>
        cases hn : notify obs ⟨"action", "Page scroll test successful"⟩ <;> simp [hn]

theorem perform_action_frame (env : Env) (obs : Obs) (i : Nat) (a : Action)
    (r : BotReport) :
    perform_action env obs i a true r =
      ((perform_action env obs i a true emptyReport).1,
        { r with actions := r.actions ++
            (perform_action env obs i a true emptyReport).2.1.actions },
        (perform_action env obs i a true emptyReport).2.2) := by
  obtain ⟨su, ac, er, an, pf⟩ := r
  obtain ⟨ty, sl, tx, du⟩ := a
  unfold perform_action
  dsimp only
  by_cases h1 : ty = some "click"
  · subst h1
    rw [if_pos rfl, if_pos rfl]
    cases sl with
    | none => simp [emptyReport]
    | some sel =>
      cases env.actionCallResult i with
      | error e => simp [emptyReport]
      | ok u =>
        cases hn : notify obs
            ⟨"action", "Custom action executed: " ++ pyOptStr (some "click")⟩ <;>
          simp [hn, emptyReport]
  · rw [if_neg h1, if_neg h1]
    by_cases h2 : ty = some "type"
    · subst h2
      rw [if_pos rfl, if_pos rfl]
      cases sl with
      | none => simp [emptyReport]
      | some sel =>
        cases tx with
        | none => simp [emptyReport]
        | some txt =>
          cases env.actionCallResult i with
          | error e => simp [emptyReport]
          | ok u =>
            cases hn : notify obs
                ⟨"action", "Custom action executed: " ++ pyOptStr (some "type")⟩ <;>
              simp [hn, emptyReport]
    · rw [if_neg h2, if_neg h2]
      by_cases h3 : ty = some "wait"
      · subst h3
        rw [if_pos rfl, if_pos rfl]
        cases env.actionCallResult i with
        | error e => simp [emptyReport]
        | ok u =>
          cases hn : notify obs
              ⟨"action", "Custom action executed: " ++ pyOptStr (some "wait")⟩ <;>
            simp [hn, emptyReport]
      · rw [if_neg h3, if_neg h3]
        cases hn : notify obs
            ⟨"action", "Custom action executed: " ++ pyOptStr ty⟩ <;>
          simp [hn, emptyReport]

theorem perform_action_events (env : Env) (obs : Obs) (i : Nat) (a : Action)
    (r : BotReport) :
    ∀ e ∈ (perform_action env obs i a true r).2.2, isCustomEv e = true := by
  obtain ⟨ty, sl, tx, du⟩ := a
  unfold perform_action
  dsimp only
  by_cases h1 : ty = some "click"
  · subst h1
    rw [if_pos rfl]
    cases sl with
    | none => simp
    | some sel =>
      cases env.actionCallResult i with
      | error e => simp [isCustomEv]
      | ok u =>
        cases hn : notify obs
            ⟨"action", "Custom action executed: " ++ pyOptStr (some "click")⟩ <;>
          simp [hn, isCustomEv]
  · rw [if_neg h1]
    by_cases h2 : ty = some "type"
    · subst h2
      rw [if_pos rfl]
      cases sl with
      | none => simp
      | some sel =>
        cases tx with
        | none => simp
        | some txt =>
          cases env.actionCallResult i with
          | error e => simp [isCustomEv]
          | ok u =>
            cases hn : notify obs
                ⟨"action", "Custom action executed: " ++ pyOptStr (some "type")⟩ <;>
              simp [hn, isCustomEv]
    · rw [if_neg h2]
      by_cases h3 : ty = some "wait"
      · subst h3
        rw [if_pos rfl]
        cases env.actionCallResult i with
        | error e => simp [isCustomEv]
        | ok u =>
          cases hn : notify obs
              ⟨"action", "Custom action executed: " ++ pyOptStr (some "wait")⟩ <;>
            simp [hn, isCustomEv]
      · rw [if_neg h3]
        cases hn : notify obs
            ⟨"action", "Custom action executed: " ++ pyOptStr ty⟩ <;>
          simp [hn]

theorem perform_action_errors (env : Env) (obs : Obs) (i : Nat) (a : Action)
    (r : BotReport) :
    (perform_action env obs i a true r).2.1.errors = r.errors := by
  rw [perform_action_frame]

theorem runAction_frame (env : Env) (obs : Obs) (i : Nat) (a : Action)
    (r : BotReport) :
    runAction env obs i a true r =
      ({ r with actions := r.actions ++ (actionContrib env obs i a).1.actions,
                errors := r.errors ++ (actionContrib env obs i a).1.errors },
        (actionContrib env obs i a).2) := by
  unfold runAction actionContrib
  rw [perform_action_frame env obs i a r]
  rcases hE : perform_action env obs i a true emptyReport with ⟨exc, pr, pev⟩
  have hpr : pr.errors = [] := by
    have h := perform_action_errors env obs i a emptyReport
    rw [hE] at h
    simpa [emptyReport] using h
  cases exc <;> simp [runAction, hE, hpr]

theorem runActions_decomp (env : Env) (obs : Obs) (l : List Action) :
    ∀ (i : Nat) (r : BotReport),
      runActions env obs true i l r =
        ({ r with actions := r.actions ++ (contribsList env obs i l).1,
                  errors := r.errors ++ (contribsList env obs i l).2.1 },
          (contribsList env obs i l).2.2) := by
  induction l with
  | nil => intro i r; simp [runActions, contribsList]
  | cons a rest ih =>
      intro i r
      simp only [runActions, contribsList]
      rw [runAction_frame, ih]
      simp

theorem actionContrib_errs (env : Env) (obs : Obs) (i : Nat) (a : Action) :
    (actionContrib env obs i a).1.errors = [] ∨
      ∃ m, (actionContrib env obs i a).1.errors =
        [⟨"ACTION_ERROR", some a.atype, m⟩] := by
  unfold actionContrib runAction
  rcases hE : perform_action env obs i a true emptyReport with ⟨exc, pr, pev⟩
  have hpr : pr.errors = [] := by
    have h := perform_action_errors env obs i a emptyReport
    rw [hE] at h
    simpa [emptyReport] using h
  cases exc with
  | none => left; simp [hpr]
  | some e => right; exact ⟨e, by simp [hpr]⟩

theorem actionContrib_evs (env : Env) (obs : Obs) (i : Nat) (a : Action) :
    ∀ e ∈ (actionContrib env obs i a).2, isCustomEv e = true := by
  unfold actionContrib runAction
  rcases hE : perform_action env obs i a true emptyReport with ⟨exc, pr, pev⟩
  have hev : ∀ e ∈ pev, isCustomEv e = true := by
    have h := perform_action_events env obs i a emptyReport
    rw [hE] at h
    exact h
  cases exc <;> simpa using hev

theorem contribsList_errs (env : Env) (obs : Obs) (l : List Action) :
    ∀ (i : Nat), ∀ e ∈ (contribsList env obs i l).2.1, e.etype = "ACTION_ERROR" := by
  induction l with
  | nil => intro i e he; simp [contribsList] at he
  | cons a rest ih =>
      intro i e he
      simp only [contribsList, List.mem_append] at he
      rcases he with he | he
      · rcases actionContrib_errs env obs i a with h | ⟨m, h⟩
        · rw [h] at he; simp at he
        · rw [h] at he; simp at he; rw [he]
      · exact ih (i + 1) e he

theorem contribsList_evs (env : Env) (obs : Obs) (l : List Action) :
    ∀ (i : Nat), ∀ e ∈ (contribsList env obs i l).2.2, isCustomEv e = true := by
  induction l with
  | nil => intro i e he; simp [contribsList] at he
  | cons a rest ih =>
      intro i e he
      simp only [contribsList, List.mem_append] at he
      rcases he with he | he
      · exact actionContrib_evs env obs i a e he
      · exact ih (i + 1) e he

theorem runTestTry_success_eq (env : Env) (url : String) (l : List Action)
    (obs : Obs) (s : BotState) :
    (runTestTry env url l obs s).1.success =
      (match (runTestTry env url l obs s).2.1 with
        | none => (runTestTry env url l obs s).1.errors.isEmpty
        | some _ => false) := by
  cases hi : (initializeBot env s).1 && (initializeBot env s).2.1.page
  · simp [runTestTry, hi, emptyReport]
  · simp only [runTestTry, hi]
    repeat' split
    all_goals simp_all [emptyReport]

theorem run_success_eq (env : Env) (url : String) (l : List Action)
    (obs : Obs) (s : BotState) :
    (run_test env url l obs s).report.success =
      (run_test env url l obs s).report.errors.isEmpty := by
  have h := runTestTry_success_eq env url l obs s
  unfold run_test
  rcases hB : runTestTry env url l obs s with ⟨r, exc, s1, tr⟩
  rw [hB] at h
  cases exc with
  | none => simpa using h
  | some e =>
      simp only at h
      simp [h]

theorem runTestTry_init_fail {env : Env} (url : String) (l : List Action)
    (obs : Obs) (s : BotState) (hinit : initOk env = false) :
    runTestTry env url l obs s =
      (emptyReport, some "Browser initialization failed", freshState,
        (initializeBot env s).2.2) := by
  simp [runTestTry, initBot_fst, initBot_state, hinit]

theorem runTestTry_goto_fail {env : Env} (url : String) (l : List Action)
    {obs : Obs} {m : String} (hinit : initOk env = true) (hobs : ObsOk obs)
    (hg : env.gotoResult = .error m) :
    runTestTry env url l obs freshState =
      (emptyReport, some m, allHeld,
        [Ev.pwStart, Ev.launch, Ev.newContext, Ev.newPage, Ev.goto url]) := by
  have hn := fun u => hobs u
  simp [runTestTry, initBot_ok_trace hinit, allHeld, hn, hg]

theorem runTestTry_analyze_fail {env : Env} (url : String) (l : List Action)
    {obs : Obs} {ro : Option Nat} {m : String} (hinit : initOk env = true)
    (hobs : ObsOk obs) (hg : env.gotoResult = .ok ro)
    (ha : env.analyzeResult = .error m) :
    runTestTry env url l obs freshState =
      (⟨false, [], [], none, perfList env.loadTime ro⟩, some m, allHeld,
        [Ev.pwStart, Ev.launch, Ev.newContext, Ev.newPage, Ev.goto url,
          Ev.analyze]) := by
  have p1 : perfSet [] "load_time" env.loadTime = [("load_time", env.loadTime)] := rfl
  have p2 : ∀ t, perfSet [("load_time", env.loadTime)] "response_time" t =
      [("load_time", env.loadTime), ("response_time", t)] := fun t => rfl
  have hn := fun u => hobs u
  simp only [runTestTry, initBot_ok_trace hinit, allHeld, hn, hg, analyze_page, ha]
  cases ro <;> simp [emptyReport, p1, p2, perfList, allHeld, hn]

theorem runTestTry_acting {env : Env} (url : String) (l : List Action)
    {obs : Obs} {ro : Option Nat} {an : PageAnalysis} (hinit : initOk env = true)
    (hobs : ObsOk obs) (hg : env.gotoResult = .ok ro)
    (ha : env.analyzeResult = .ok an) :
    runTestTry env url l obs freshState =
      (⟨((autoContrib env).2 ++ (contribsList env obs 0 l).2.1).isEmpty,
        (autoContrib env).1 ++ (contribsList env obs 0 l).1,
        (autoContrib env).2 ++ (contribsList env obs 0 l).2.1,
        some an, perfList env.loadTime ro⟩,
       none, allHeld,
       [Ev.pwStart, Ev.launch, Ev.newContext, Ev.newPage, Ev.goto url,
         Ev.analyze] ++ autoEv env ++ (contribsList env obs 0 l).2.2) := by
  have p1 : perfSet [] "load_time" env.loadTime = [("load_time", env.loadTime)] := rfl
  have p2 : ∀ t, perfSet [("load_time", env.loadTime)] "response_time" t =
      [("load_time", env.loadTime), ("response_time", t)] := fun t => rfl
  have hn := fun u => hobs u
  cases ro <;>
    simp [runTestTry, initBot_ok_trace hinit, allHeld, hn, hg, analyze_page, ha,
      pa_spec env obs hobs, runActions_decomp env obs l, emptyReport, p1, p2, perfList]

theorem notClose_of_custom : ∀ e : Ev, isCustomEv e = true →
    isClosePage e = false ∧ isCloseContext e = false ∧
      isCloseBrowser e = false ∧ isPwStop e = false := by
  intro e h
  cases e <;>
    simp_all [isCustomEv, isClosePage, isCloseContext, isCloseBrowser, isPwStop]

theorem countEv_contribs (env : Env) (obs : Obs) (i : Nat) (l : List Action)
    (p : Ev → Bool) (hp : ∀ e, isCustomEv e = true → p e = false) :
    countEv p (contribsList env obs i l).2.2 = 0 :=
  countEv_eq_zero (fun e he => hp e (contribsList_evs env obs l i e he))

theorem countEv_pa (env : Env) (obs : Obs) (ph : Bool) (r : BotReport)
    (p : Ev → Bool) (h1 : p Ev.scrollEval = false) (h2 : p Ev.scrollWait = false) :
    countEv p (perform_automated_actions env obs ph r).2 = 0 := by
  rcases pa_trace env obs ph r with h | h | h <;> rw [h] <;>
    simp [countEv, h1, h2]

theorem countEv_nil (p : Ev → Bool) : countEv p [] = 0 := rfl

theorem countEv_cons (p : Ev → Bool) (e : Ev) (t : List Ev) :
    countEv p (e :: t) = countEv p t + (if p e then 1 else 0) := by
  simp [countEv, List.countP_cons]

theorem cleanup_counts (env : Env) (s : BotState) :
    countEv isClosePage (cleanup env s).2 = (if s.page then 1 else 0) ∧
    countEv isCloseContext (cleanup env s).2 = (if s.context then 1 else 0) ∧
    countEv isCloseBrowser (cleanup env s).2 = (if s.browser then 1 else 0) ∧
    countEv isPwStop (cleanup env s).2 = (if s.playwright then 1 else 0) := by
  obtain ⟨p, c, b, pw⟩ := s
  cases p <;> cases c <;> cases b <;> cases pw <;>
    simp [cleanup, countEv, isClosePage, isCloseContext, isCloseBrowser, isPwStop]

theorem initBot_counts (env : Env) :
    countEv isClosePage (initializeBot env freshState).2.2 = 0 ∧
    countEv isCloseContext (initializeBot env freshState).2.2 =
      (if contextAcquired env && !initOk env then 1 else 0) ∧
    countEv isCloseBrowser (initializeBot env freshState).2.2 =
      (if browserAcquired env && !initOk env then 1 else 0) ∧
    countEv isPwStop (initializeBot env freshState).2.2 =
      (if pwAcquired env && !initOk env then 1 else 0) := by
  unfold initializeBot initOk pwAcquired browserAcquired contextAcquired
  cases env.startResult <;> cases env.launchResult <;>
    cases env.newContextResult <;> cases env.newPageResult <;>
    simp [cleanup, countEv, freshState, Except.isOk, Except.toBool,
      isClosePage, isCloseContext, isCloseBrowser, isPwStop]

theorem runTestTry_ok_counts (env : Env) (url : String) (l : List Action)
    (obs : Obs) (hinit : initOk env = true) :
    (runTestTry env url l obs freshState).2.2.1 = allHeld ∧
    countEv isClosePage (runTestTry env url l obs freshState).2.2.2 = 0 ∧
    countEv isCloseContext (runTestTry env url l obs freshState).2.2.2 = 0 ∧
    countEv isCloseBrowser (runTestTry env url l obs freshState).2.2.2 = 0 ∧
    countEv isPwStop (runTestTry env url l obs freshState).2.2.2 = 0 := by
  have hc1 := countEv_contribs env obs 0 l isClosePage
    (fun e h => (notClose_of_custom e h).1)
  have hc2 := countEv_contribs env obs 0 l isCloseContext
    (fun e h => (notClose_of_custom e h).2.1)
  have hc3 := countEv_contribs env obs 0 l isCloseBrowser
    (fun e h => (notClose_of_custom e h).2.2.1)
  have hc4 := countEv_contribs env obs 0 l isPwStop
    (fun e h => (notClose_of_custom e h).2.2.2)
  simp only [runTestTry, initBot_ok_trace hinit]
  cases hn1 : notify obs ⟨"status", "Bot started, navigating..."⟩ with
  | error e =>
      simp [allHeld, countEv, isClosePage, isCloseContext, isCloseBrowser, isPwStop]
  | ok u1 =>
    cases hg : env.gotoResult with
    | error m =>
        simp [allHeld, countEv, isClosePage, isCloseContext, isCloseBrowser, isPwStop]
    | ok ro =>
      cases hn2 : notify obs
          ⟨"navigation", "Page loaded (" ++ toString env.loadTime ++ "ms)"⟩ with
      | error e =>
          simp [allHeld, countEv, isClosePage, isCloseContext, isCloseBrowser, isPwStop]
      | ok u2 =>
        dsimp only [allHeld, analyze_page]
        cases ha : env.analyzeResult with
        | error m =>
            simp [ha, countEv, isClosePage, isCloseContext,
              isCloseBrowser, isPwStop]
        | ok an =>
          simp only [ha]
          cases hn3 : notify obs
              ⟨"analysis", "Page analyzed: " ++ toString an.link_count ++
                " links, " ++ toString an.form_count ++ " forms"⟩ with
          | error e =>
              simp [hn3, countEv, isClosePage, isCloseContext,
                isCloseBrowser, isPwStop]
          | ok u3 =>
              have w1 : ∀ r, countEv isClosePage (perform_automated_actions env obs true r).2 = 0 :=
                fun r => countEv_pa env obs true r isClosePage rfl rfl
              have w2 : ∀ r, countEv isCloseContext (perform_automated_actions env obs true r).2 = 0 :=
                fun r => countEv_pa env obs true r isCloseContext rfl rfl
              have w3 : ∀ r, countEv isCloseBrowser (perform_automated_actions env obs true r).2 = 0 :=
                fun r => countEv_pa env obs true r isCloseBrowser rfl rfl
              have w4 : ∀ r, countEv isPwStop (perform_automated_actions env obs true r).2 = 0 :=
                fun r => countEv_pa env obs true r isPwStop rfl rfl
              have hnil : ∀ p : Ev → Bool, countEv p [] = 0 := fun p => rfl
              simp [runActions_decomp env obs l, hn3, countEv_append, countEv_cons,
                hnil, isClosePage, isCloseContext, isCloseBrowser, isPwStop,
                w1, w2, w3, w4, hc1, hc2, hc3, hc4]

theorem run_test_parts (env : Env) (url : String) (l : List Action)
    (obs : Obs) (s : BotState) :
    (run_test env url l obs s).trace =
      (runTestTry env url l obs s).2.2.2 ++
        (cleanup env (runTestTry env url l obs s).2.2.1).2 ∧
    (run_test env url l obs s).state = freshState ∧
    (run_test env url l obs s).report =
      (match (runTestTry env url l obs s).2.1 with
        | none => (runTestTry env url l obs s).1
        | some e => { (runTestTry env url l obs s).1 with
            errors := (runTestTry env url l obs s).1.errors ++
              [⟨"CRITICAL_ERROR", none, e⟩] }) ∧
    (run_test env url l obs s).escaped =
      (match (runTestTry env url l obs s).2.1 with
        | none => none
        | some e =>
          match notify obs ⟨"error", "Critical error: " ++ e⟩ with
          | .ok _ => none
          | .error e2 => some e2) := by
  unfold run_test
  rcases hB : runTestTry env url l obs s with ⟨r, exc, s1, tr⟩
  cases exc <;> simp [cleanup_state]

theorem acq_of_initOk {env : Env} (h : initOk env = true) :
    pwAcquired env = true ∧ browserAcquired env = true ∧
      contextAcquired env = true ∧ pageAcquired env = true := by
  obtain ⟨h1, h2, h3, h4⟩ := initOk_fields h
  simp [pwAcquired, browserAcquired, contextAcquired, pageAcquired, initOk,
    h1, h2, h3, h4, Except.isOk, Except.toBool]

theorem run_close_counts (env : Env) (url : String) (l : List Action) (obs : Obs) :
    countEv isClosePage (run_test env url l obs freshState).trace =
      (if pageAcquired env then 1 else 0) ∧
    countEv isCloseContext (run_test env url l obs freshState).trace =
      (if contextAcquired env then 1 else 0) ∧
    countEv isCloseBrowser (run_test env url l obs freshState).trace =
      (if browserAcquired env then 1 else 0) ∧
    countEv isPwStop (run_test env url l obs freshState).trace =
      (if pwAcquired env then 1 else 0) := by
  have hparts := (run_test_parts env url l obs freshState).1
  rw [hparts]
  cases hinit : initOk env with
  | false =>
      have hfail := runTestTry_init_fail url l obs freshState hinit
      rw [hfail]
      obtain ⟨i1, i2, i3, i4⟩ := initBot_counts env
      have hpa : pageAcquired env = false := by simpa [pageAcquired] using hinit
      have hnil : ∀ p : Ev → Bool, countEv p [] = 0 := fun p => rfl
      simp [cleanup_fresh, countEv_append, hnil, i1, i2, i3, i4, hinit, hpa]
  | true =>
      obtain ⟨hstate, c1, c2, c3, c4⟩ := runTestTry_ok_counts env url l obs hinit
      obtain ⟨a1, a2, a3, a4⟩ := acq_of_initOk hinit
      rw [hstate]
      obtain ⟨k1, k2, k3, k4⟩ := cleanup_counts env allHeld
      simp only [allHeld] at k1 k2 k3 k4
      simp [countEv_append, c1, c2, c3, c4, k1, k2, k3, k4, allHeld,
        a1, a2, a3, a4]

theorem run_escaped_obsOk (env : Env) (url : String) (l : List Action)
    (obs : Obs) (s : BotState) (hobs : ObsOk obs) :
    (run_test env url l obs s).escaped = none := by
  have h := (run_test_parts env url l obs s).2.2.2
  rw [h]
  cases hx : (runTestTry env url l obs s).2.1 with
  | none => rfl
  | some e => simp [hobs _]

theorem run_escape_src (env : Env) (url : String) (l : List Action)
    (obs : Obs) (s : BotState) :
    (run_test env url l obs s).escaped = none ∨
      ∃ u e, notify obs u = .error e ∧
        (run_test env url l obs s).escaped = some e := by
  have h := (run_test_parts env url l obs s).2.2.2
  rw [h]
  cases hx : (runTestTry env url l obs s).2.1 with
  | none => left; rfl
  | some m =>
      cases hn : notify obs ⟨"error", "Critical error: " ++ m⟩ with
      | ok u => left; simp [hn]
      | error e2 => right; exact ⟨_, e2, hn, by simp [hn]⟩

theorem autoContrib_errs (env : Env) :
    ∀ e ∈ (autoContrib env).2, e.etype = "AUTOMATION_ERROR" := by
  unfold autoContrib
  cases env.scrollEvalResult <;> cases env.scrollWaitResult <;> simp

theorem filter_none {α : Type} (p : α → Bool) :
    ∀ (xs : List α), (∀ e ∈ xs, p e = false) → xs.filter p = []
  | [], _ => rfl
  | x :: xs, h => by
      have hx : p x = false := h x (by simp)
      have ht := filter_none p xs (fun e he => h e (by simp [he]))
      simp [List.filter, hx, ht]

theorem contribsList_goto (env : Env) (x : Except String (Option Nat))
    (obs : Obs) (l : List Action) :
    ∀ i, contribsList { env with gotoResult := x } obs i l =
      contribsList env obs i l := by
  induction l with
  | nil => intro i; rfl
  | cons a rest ih =>
      intro i
      simp only [contribsList, ih]
      rfl

/-! Claim theorems. -/

/-- C1: for every completed call to `run_test` (any URL, any custom action
list, any observer, any environment behaviour), the success flag of the
returned report is true if and only if its error list is empty at
completion.  A call is "completed" when no exception escaped `run_test`
(`escaped = none`); in that case the report is actually returned to the
caller. -/
theorem spec_c1 (env : Env) (url : String) (l : List Action) (obs : Obs)
    (h : (run_test env url l obs freshState).escaped = none) :
    (run_test env url l obs freshState).report.success = true ↔
      (run_test env url l obs freshState).report.errors = [] := by
  rw [run_success_eq env url l obs freshState]
  cases hx : (run_test env url l obs freshState).report.errors <;>
    simp [List.isEmpty]

/-- Witness for C1 at a concrete fully-succeeding run. -/
theorem spec_c1_witness :
    (run_test envOk "https://x.test/" [] none freshState).escaped = none ∧
      ((run_test envOk "https://x.test/" [] none freshState).report.success = true ↔
        (run_test envOk "https://x.test/" [] none freshState).report.errors = []) :=
  ⟨rfl, spec_c1 envOk "https://x.test/" [] none rfl⟩

/-- C5: in every run from a fresh bot, each of the four sub-resources is
closed exactly once if it was acquired during the run and zero times
otherwise (the cleanup sequence is attempted exactly once per run), and
the only exception that can escape `run_test` is one raised by the
observer itself — an exception raised by any of the four close/stop calls
never propagates past the run boundary, whatever the rest of the
environment does. -/
theorem spec_c5 (env : Env) (url : String) (l : List Action) (obs : Obs) :
    (countEv isClosePage (run_test env url l obs freshState).trace =
        (if pageAcquired env then 1 else 0) ∧
      countEv isCloseContext (run_test env url l obs freshState).trace =
        (if contextAcquired env then 1 else 0) ∧
      countEv isCloseBrowser (run_test env url l obs freshState).trace =
        (if browserAcquired env then 1 else 0) ∧
      countEv isPwStop (run_test env url l obs freshState).trace =
        (if pwAcquired env then 1 else 0)) ∧
    ((run_test env url l obs freshState).escaped = none ∨
      ∃ u e, notify obs u = .error e ∧
        (run_test env url l obs freshState).escaped = some e) :=
  ⟨run_close_counts env url l obs, run_escape_src env url l obs freshState⟩

/-- C6: `cleanup` releases held sub-resources in the fixed order page,
context, browser, engine handle — when all four are held the trace is
exactly these four close calls in order, each carrying whether it raised
(a raise is caught, so the remaining closes are still attempted) — and in
general the close of each sub-resource is attempted exactly once when held and
never otherwise, independently of whether any other close raised. -/
theorem spec_c6 (env : Env) (s : BotState) :
    (s = allHeld →
      (cleanup env s).2 =
        [Ev.closePage (raises env.closePageResult),
         Ev.closeContext (raises env.closeContextResult),
         Ev.closeBrowser (raises env.closeBrowserResult),
         Ev.pwStop (raises env.stopResult)]) ∧
    countEv isClosePage (cleanup env s).2 = (if s.page then 1 else 0) ∧
    countEv isCloseContext (cleanup env s).2 = (if s.context then 1 else 0) ∧
    countEv isCloseBrowser (cleanup env s).2 = (if s.browser then 1 else 0) ∧
    countEv isPwStop (cleanup env s).2 = (if s.playwright then 1 else 0) := by
  refine ⟨?_, cleanup_counts env s⟩
  intro hs
  subst hs
  rw [cleanup_allHeld_trace]

/-- Witness for C6: all four close calls raise, yet all four are attempted,
in order. -/
theorem spec_c6_witness :
    (cleanup envCloseFail allHeld).2 =
      [Ev.closePage true, Ev.closeContext true, Ev.closeBrowser true,
        Ev.pwStop true] :=
  ((spec_c6 envCloseFail allHeld).1 rfl).trans rfl

/-- C10: after any call to `cleanup` — including calls in which some or
all of the individual close/stop calls raised — all four handles are
`None`; consequently every `run_test` call (which ends in `cleanup`)
leaves the bot in the handle-free fresh state. -/
theorem spec_c10 (env : Env) (s : BotState) (url : String) (l : List Action)
    (obs : Obs) :
    (cleanup env s).1 = freshState ∧
      (run_test env url l obs s).state = freshState :=
  ⟨cleanup_state env s, (run_test_parts env url l obs s).2.1⟩

/-- C3: (i) a failure of the built-in automated scroll is recorded as
exactly one structured `AUTOMATION_ERROR` entry and no action result;
(ii) a failure of an individual custom action is recorded as exactly one
`ACTION_ERROR` entry carrying the kind of the offending action and the
exception message; (iii) the custom-action loop is a concatenation of
per-action contributions, each computed from that action and the outcome
of its own page call alone — so one failing action never prevents the
subsequent actions from being attempted and producing their results. -/
theorem spec_c3 (env : Env) (obs : Obs) (r : BotReport) (i : Nat) (a : Action)
    (sel m m2 : String) (l : List Action) :
    (env.scrollEvalResult = .error m →
      perform_automated_actions env obs true r =
        ({ r with errors := r.errors ++ [⟨"AUTOMATION_ERROR", none, m⟩] },
          [Ev.scrollEval])) ∧
    (a.atype = some "click" → a.selector = some sel →
      env.actionCallResult i = .error m2 →
      runAction env obs i a true r =
        ({ r with errors := r.errors ++ [⟨"ACTION_ERROR", some a.atype, m2⟩] },
          [Ev.click sel])) ∧
    runActions env obs true i l r =
      ({ r with actions := r.actions ++ (contribsList env obs i l).1,
                errors := r.errors ++ (contribsList env obs i l).2.1 },
        (contribsList env obs i l).2.2) := by
  refine ⟨?_, ?_, runActions_decomp env obs l i r⟩
  · intro h
    obtain ⟨su, ac, er, an, pf⟩ := r
    unfold perform_automated_actions
    rw [h]
    simp
  · intro h1 h2 h3
    obtain ⟨su, ac, er, an, pf⟩ := r
    obtain ⟨ty, sl, tx, du⟩ := a
    dsimp only at h1 h2 ⊢
    subst h1
    subst h2
    unfold runAction perform_action
    dsimp only
    rw [if_pos rfl, h3]
    simp

/-- Witness for C3: environment whose scroll evaluation and custom-action
page calls all raise. -/
theorem spec_c3_witness :
    (perform_automated_actions envActFail none true emptyReport =
      ({ emptyReport with
          errors := emptyReport.errors ++
            [⟨"AUTOMATION_ERROR", none, "scroll boom"⟩] },
        [Ev.scrollEval])) ∧
    (runAction envActFail none 0 actClick true emptyReport =
      ({ emptyReport with
          errors := emptyReport.errors ++
            [⟨"ACTION_ERROR", some actClick.atype, "click boom"⟩] },
        [Ev.click "#go"])) ∧
    runActions envActFail none true 0 [actClick] emptyReport =
      ({ emptyReport with
          actions := emptyReport.actions ++
            (contribsList envActFail none 0 [actClick]).1,
          errors := emptyReport.errors ++
            (contribsList envActFail none 0 [actClick]).2.1 },
        (contribsList envActFail none 0 [actClick]).2.2) :=
  ⟨(spec_c3 envActFail none emptyReport 0 actClick "#go" "scroll boom"
      "click boom" [actClick]).1 rfl,
   (spec_c3 envActFail none emptyReport 0 actClick "#go" "scroll boom"
      "click boom" [actClick]).2.1 rfl rfl rfl,
   (spec_c3 envActFail none emptyReport 0 actClick "#go" "scroll boom"
      "click boom" [actClick]).2.2⟩

/-- C7 counterexample: the claim says an unsupported-kind custom action is
silently ignored, appending neither an action result nor an error entry.
But `perform_action` still invokes the observer for unsupported kinds; an
observer that raises on that notification makes the per-action handler
append an `ACTION_ERROR` entry whose `action` field is the unsupported
kind — so an error entry is appended for an unsupported action. -/
theorem spec_c7_counterexample :
    (run_test envOk "https://x.test/" [actHover] obsErrOnHover
        freshState).report.errors =
      [⟨"ACTION_ERROR", some (some "hover"), "observer boom"⟩] ∧
    (run_test envOk "https://x.test/" [actHover] obsErrOnHover
        freshState).report.actions =
      [⟨"SCROLL", "SUCCESS", "Scrolled to page middle"⟩] :=
  ⟨rfl, rfl⟩

/-- C7 (amended): for a custom action whose kind is not `click`, `type`
or `wait`, `perform_action` appends no `ActionResult` and makes no page
call; and provided the observer notification (which is still made) does
not raise — in particular whenever no observer is supplied — no error
entry is appended either, so the action is skipped without trace.  (When
the observer raises on that notification, the exception is recorded as an
`ACTION_ERROR` entry by the per-action handler.) -/
theorem spec_c7_amended (env : Env) (obs : Obs) (i : Nat) (a : Action)
    (r : BotReport) (h1 : a.atype ≠ some "click") (h2 : a.atype ≠ some "type")
    (h3 : a.atype ≠ some "wait") :
    (perform_action env obs i a true r).2.1 = r ∧
    (perform_action env obs i a true r).2.2 = [] ∧
    (ObsOk obs → runAction env obs i a true r = (r, [])) := by
  obtain ⟨ty, sl, tx, du⟩ := a
  dsimp only at h1 h2 h3
  unfold runAction perform_action
  dsimp only
  rw [if_neg h1, if_neg h2, if_neg h3]
  cases hn : notify obs ⟨"action", "Custom action executed: " ++ pyOptStr ty⟩ with
  | ok u => simp [hn]
  | error e =>
      refine ⟨rfl, rfl, fun hobs => ?_⟩
      rw [hobs _] at hn
      cases hn

/-- Witness for C7 (amended) at a concrete unsupported action with no
observer. -/
theorem spec_c7_witness :
    (perform_action envOk none 0 actHover true emptyReport).2.1 = emptyReport ∧
    (perform_action envOk none 0 actHover true emptyReport).2.2 = [] ∧
    runAction envOk none 0 actHover true emptyReport = (emptyReport, []) := by
  have h := spec_c7_amended envOk none 0 actHover emptyReport
    (by decide) (by decide) (by decide)
  exact ⟨h.1, h.2.1, h.2.2 (fun u => rfl)⟩

/-- C9 counterexample: the claim says every numeric configuration field
lies within a fixed `[min, max]` range and out-of-range construction
fails.  But `ConcurrencyConfig.min_bots` is declared with `ge=1` and no
`le` bound: a configuration with `min_bots = 1000001` — larger than every
upper bound declared anywhere in the schema (the largest is 120000) — is
accepted. -/
theorem spec_c9_counterexample :
    mkConcurrencyConfig 10 1000001 1 = some ⟨10, 1000001, 1⟩ ∧
      (120000 : Int) < 1000001 := by
  constructor
  · rfl
  · decide

/-- C9 (amended): every numeric field of the modelled configuration
classes is bounded below, and all of them except
`ConcurrencyConfig.min_bots` and `ConcurrencyConfig.default_bots` (which
have only the lower bound 1) are also bounded above by a fixed maximum
(width `[800, 3840]`, height `[600, 2160]`, browser timeout
`[5000, 120000]`, `max_bots` `[1, 100]`).  Construction accepts a value
exactly when it satisfies the declared bounds, rejects it otherwise
(rather than clamping — accepted values are stored unchanged), and
`min_bots` accepts every value `≥ 1`, however large. -/
theorem spec_c9_amended :
    (∀ w h c, mkViewportConfig w h = some c →
      (800 ≤ c.width ∧ c.width ≤ 3840 ∧ 600 ≤ c.height ∧ c.height ≤ 2160) ∧
        c.width = w ∧ c.height = h) ∧
    (∀ w h, (w < 800 ∨ 3840 < w ∨ h < 600 ∨ 2160 < h) →
      mkViewportConfig w h = none) ∧
    (∀ hl t ar c, mkBrowserConfig hl t ar = some c →
      (5000 ≤ c.timeout ∧ c.timeout ≤ 120000) ∧ c.timeout = t) ∧
    (∀ hl t ar, (t < 5000 ∨ 120000 < t) → mkBrowserConfig hl t ar = none) ∧
    (∀ mb mn db c, mkConcurrencyConfig mb mn db = some c →
      (1 ≤ c.max_bots ∧ c.max_bots ≤ 100 ∧ 1 ≤ c.min_bots ∧
          1 ≤ c.default_bots) ∧
        c.max_bots = mb ∧ c.min_bots = mn ∧ c.default_bots = db) ∧
    (∀ mb mn db, (mb < 1 ∨ 100 < mb ∨ mn < 1 ∨ db < 1) →
      mkConcurrencyConfig mb mn db = none) ∧
    (∀ n : Int, 1 ≤ n → ∃ c, mkConcurrencyConfig 10 n 1 = some c) := by
  refine ⟨?_, ?_, ?_, ?_, ?_, ?_, ?_⟩
  · intro w h c hc
    unfold mkViewportConfig fieldOk at hc
    split at hc
    · rename_i hb
      simp only [Option.some.injEq] at hc
      subst hc
      dsimp only
      simp only [Bool.and_eq_true, decide_eq_true_eq] at hb
      refine ⟨⟨?_, ?_, ?_, ?_⟩, rfl, rfl⟩ <;> omega
    · cases hc
  · intro w h hout
    unfold mkViewportConfig fieldOk
    split
    · rename_i hb
      simp only [Bool.and_eq_true, decide_eq_true_eq] at hb
      omega
    · rfl
  · intro hl t ar c hc
    unfold mkBrowserConfig fieldOk at hc
    split at hc
    · rename_i hb
      simp only [Option.some.injEq] at hc
      subst hc
      dsimp only
      simp only [Bool.and_eq_true, decide_eq_true_eq] at hb
      refine ⟨⟨?_, ?_⟩, rfl⟩ <;> omega
    · cases hc
  · intro hl t ar hout
    unfold mkBrowserConfig fieldOk
    split
    · rename_i hb
      simp only [Bool.and_eq_true, decide_eq_true_eq] at hb
      omega
    · rfl
  · intro mb mn db c hc
    unfold mkConcurrencyConfig fieldOk at hc
    split at hc
    · rename_i hb
      simp only [Option.some.injEq] at hc
      subst hc
      dsimp only
      simp only [Bool.and_eq_true, decide_eq_true_eq] at hb
      refine ⟨⟨?_, ?_, ?_, ?_⟩, rfl, rfl, rfl⟩ <;> omega
    · cases hc
  · intro mb mn db hout
    unfold mkConcurrencyConfig fieldOk
    split
    · rename_i hb
      simp only [Bool.and_eq_true, decide_eq_true_eq] at hb
      omega
    · rfl
  · intro n hn
    exact ⟨⟨10, n, 1⟩, by simp [mkConcurrencyConfig, fieldOk, hn]⟩

/-- Witness for C9 (amended) at concrete in-range and out-of-range
values. -/
theorem spec_c9_witness :
    ((800 ≤ (1366 : Int) ∧ (1366 : Int) ≤ 3840 ∧ 600 ≤ (768 : Int) ∧
        (768 : Int) ≤ 2160) ∧
      (1366 : Int) = 1366 ∧ (768 : Int) = 768) ∧
    mkViewportConfig 799 768 = none ∧
    ∃ c, mkConcurrencyConfig 10 1000001 1 = some c := by
  have h := spec_c9_amended
  exact ⟨h.1 1366 768 ⟨1366, 768⟩ rfl, h.2.1 799 768 (by left; decide),
    h.2.2.2.2.2.2 1000001 (by decide)⟩

/-- C2 counterexample: the claim says any exception raised anywhere in the
pipeline becomes a single `CRITICAL_ERROR` entry and `run_test` never
raises past its boundary.  Both parts fail: (i) an exception in the
automated scroll step is recorded as an `AUTOMATION_ERROR` entry, not a
`CRITICAL_ERROR` one; (ii) an observer whose `error`-event callback raises
makes `run_test` itself raise past its boundary (after the `finally`
cleanup has run). -/
theorem spec_c2_counterexample :
    ((run_test envScrollFail "https://x.test/" [] none freshState).report.errors =
        [⟨"AUTOMATION_ERROR", none, "scroll boom"⟩] ∧
      (run_test envScrollFail "https://x.test/" [] none freshState).escaped =
        none) ∧
    (run_test envNavFail "https://x.test/" [] obsErrOnError freshState).escaped =
      some "observer boom" :=
  ⟨⟨rfl, rfl⟩, rfl⟩

/-- C2 (amended): for every input whose observer callbacks do not raise,
`run_test` returns normally (never raises past its boundary); an
exception that escapes the per-step handlers — failed initialization, a
navigation exception, or a page-analysis exception — is converted into
exactly one `CRITICAL_ERROR` entry in the returned report (and no
`CRITICAL_ERROR` entry is recorded otherwise: automated-action and
custom-action exceptions are recorded as `AUTOMATION_ERROR` /
`ACTION_ERROR` entries instead); and cleanup executes regardless of which
step failed (each acquired sub-resource is closed exactly once). -/
theorem spec_c2_amended (env : Env) (url : String) (l : List Action)
    (obs : Obs) (hobs : ObsOk obs) :
    (run_test env url l obs freshState).escaped = none ∧
    (run_test env url l obs freshState).report.errors.filter
        (fun e => e.etype == "CRITICAL_ERROR") =
      (match criticalOf env with
        | some m => [⟨"CRITICAL_ERROR", none, m⟩]
        | none => []) ∧
    (countEv isClosePage (run_test env url l obs freshState).trace =
        (if pageAcquired env then 1 else 0) ∧
      countEv isCloseContext (run_test env url l obs freshState).trace =
        (if contextAcquired env then 1 else 0) ∧
      countEv isCloseBrowser (run_test env url l obs freshState).trace =
        (if browserAcquired env then 1 else 0) ∧
      countEv isPwStop (run_test env url l obs freshState).trace =
        (if pwAcquired env then 1 else 0)) := by
  refine ⟨run_escaped_obsOk env url l obs freshState hobs, ?_,
    run_close_counts env url l obs⟩
  have hrep := (run_test_parts env url l obs freshState).2.2.1
  cases hinit : initOk env with
  | false =>
      rw [runTestTry_init_fail url l obs freshState hinit] at hrep
      simp only [emptyReport] at hrep
      rw [hrep]
      simp [criticalOf, hinit]
  | true =>
      cases hg : env.gotoResult with
      | error m =>
          rw [runTestTry_goto_fail url l hinit hobs hg] at hrep
          simp only [emptyReport] at hrep
          rw [hrep]
          simp [criticalOf, hinit, hg]
      | ok ro =>
          cases ha : env.analyzeResult with
          | error m =>
              rw [runTestTry_analyze_fail url l hinit hobs hg ha] at hrep
              simp only at hrep
              rw [hrep]
              simp [criticalOf, hinit, hg, ha]
          | ok an =>
              rw [runTestTry_acting url l hinit hobs hg ha] at hrep
              simp only at hrep
              rw [hrep]
              have hmem : ∀ e ∈ (autoContrib env).2 ++ (contribsList env obs 0 l).2.1,
                  (e.etype == "CRITICAL_ERROR") = false := by
                intro e he
                rcases List.mem_append.mp he with h1 | h1
                · have h2 := autoContrib_errs env e h1
                  simp [h2]
                · have h2 := contribsList_errs env obs l 0 e h1
                  simp [h2]
              have hcrit : criticalOf env = none := by
                simp [criticalOf, hinit, hg, ha]
              rw [hcrit]
              exact filter_none (fun e : ErrorEntry => e.etype == "CRITICAL_ERROR") _ hmem

/-- Witness for C2 (amended) at a concrete fully-succeeding run with no
observer. -/
theorem spec_c2_witness :
    (run_test envOk "https://x.test/" [] none freshState).escaped = none ∧
    (run_test envOk "https://x.test/" [] none freshState).report.errors.filter
        (fun e => e.etype == "CRITICAL_ERROR") = [] ∧
    (countEv isClosePage (run_test envOk "https://x.test/" [] none freshState).trace = 1 ∧
      countEv isCloseContext (run_test envOk "https://x.test/" [] none freshState).trace = 1 ∧
      countEv isCloseBrowser (run_test envOk "https://x.test/" [] none freshState).trace = 1 ∧
      countEv isPwStop (run_test envOk "https://x.test/" [] none freshState).trace = 1) :=
  spec_c2_amended envOk "https://x.test/" [] none (fun u => rfl)

/-- C4: if initialization and navigation succeed and the single
page-introspection call raises, then the run records exactly one error
entry — a `CRITICAL_ERROR` carrying the message of that exception — the run is
unsuccessful, no exception escapes, the automated scroll and the custom
actions are never attempted (no such call appears in the trace), the
introspection call is made exactly once (no retry), and cleanup still
closes each of the four acquired sub-resources exactly once. -/
theorem spec_c4 (env : Env) (url : String) (l : List Action) (obs : Obs)
    (ro : Option Nat) (m : String) (hinit : initOk env = true)
    (hobs : ObsOk obs) (hg : env.gotoResult = .ok ro)
    (ha : env.analyzeResult = .error m) :
    (run_test env url l obs freshState).report.errors =
      [⟨"CRITICAL_ERROR", none, m⟩] ∧
    (run_test env url l obs freshState).report.success = false ∧
    (run_test env url l obs freshState).escaped = none ∧
    countEv isScrollEval (run_test env url l obs freshState).trace = 0 ∧
    countEv isCustomEv (run_test env url l obs freshState).trace = 0 ∧
    countEv isAnalyze (run_test env url l obs freshState).trace = 1 ∧
    (countEv isClosePage (run_test env url l obs freshState).trace = 1 ∧
      countEv isCloseContext (run_test env url l obs freshState).trace = 1 ∧
      countEv isCloseBrowser (run_test env url l obs freshState).trace = 1 ∧
      countEv isPwStop (run_test env url l obs freshState).trace = 1) := by
  obtain ⟨ht, hst, hrep, hesc⟩ := run_test_parts env url l obs freshState
  rw [runTestTry_analyze_fail url l hinit hobs hg ha] at ht hrep hesc
  simp only at ht hrep hesc
  rw [cleanup_allHeld_trace] at ht
  have hn := fun u => hobs u
  refine ⟨?_, ?_, ?_, ?_, ?_, ?_, ?_, ?_, ?_, ?_⟩ <;>
    simp [ht, hrep, hesc, hn, countEv_append, countEv_cons, countEv_nil,
      isScrollEval, isCustomEv, isAnalyze, isClosePage, isCloseContext,
      isCloseBrowser, isPwStop]

/-- Witness for C4 at a concrete environment whose page introspection
raises. -/
theorem spec_c4_witness :
    (run_test envAnalyzeFail "https://x.test/" [actClick] none
        freshState).report.errors = [⟨"CRITICAL_ERROR", none, "page closed"⟩] ∧
    (run_test envAnalyzeFail "https://x.test/" [actClick] none
        freshState).report.success = false ∧
    (run_test envAnalyzeFail "https://x.test/" [actClick] none
        freshState).escaped = none ∧
    countEv isScrollEval (run_test envAnalyzeFail "https://x.test/" [actClick]
        none freshState).trace = 0 ∧
    countEv isCustomEv (run_test envAnalyzeFail "https://x.test/" [actClick]
        none freshState).trace = 0 ∧
    countEv isAnalyze (run_test envAnalyzeFail "https://x.test/" [actClick]
        none freshState).trace = 1 ∧
    (countEv isClosePage (run_test envAnalyzeFail "https://x.test/" [actClick]
        none freshState).trace = 1 ∧
      countEv isCloseContext (run_test envAnalyzeFail "https://x.test/"
        [actClick] none freshState).trace = 1 ∧
      countEv isCloseBrowser (run_test envAnalyzeFail "https://x.test/"
        [actClick] none freshState).trace = 1 ∧
      countEv isPwStop (run_test envAnalyzeFail "https://x.test/" [actClick]
        none freshState).trace = 1) :=
  spec_c4 envAnalyzeFail "https://x.test/" [actClick] none (some 42)
    "page closed" rfl (fun u => rfl) rfl rfl

/-- C8: after a successful navigation the load-time metric is present in
the performance mapping of the returned report, the response-time metric is
present exactly when a response object was returned (its value when so),
and the presence or absence of the response does not change the error
list, the success flag or whether the run returns normally — a missing
response leaves a gap in the mapping and is not a failure. -/
theorem spec_c8 (env : Env) (url : String) (l : List Action) (obs : Obs)
    (ro : Option Nat) (hinit : initOk env = true) (hobs : ObsOk obs)
    (hg : env.gotoResult = .ok ro) :
    perfGet (run_test env url l obs freshState).report.performance
      "load_time" = some env.loadTime ∧
    perfGet (run_test env url l obs freshState).report.performance
      "response_time" = ro ∧
    (∀ t : Nat,
      (run_test { env with gotoResult := .ok (some t) } url l obs
          freshState).report.errors =
        (run_test { env with gotoResult := .ok none } url l obs
          freshState).report.errors ∧
      (run_test { env with gotoResult := .ok (some t) } url l obs
          freshState).report.success =
        (run_test { env with gotoResult := .ok none } url l obs
          freshState).report.success ∧
      (run_test { env with gotoResult := .ok (some t) } url l obs
          freshState).escaped =
        (run_test { env with gotoResult := .ok none } url l obs
          freshState).escaped) := by
  have hperf :
      (run_test env url l obs freshState).report.performance =
        perfList env.loadTime ro := by
    have hrep := (run_test_parts env url l obs freshState).2.2.1
    cases ha : env.analyzeResult with
    | error m =>
        rw [runTestTry_analyze_fail url l hinit hobs hg ha] at hrep
        simp only at hrep
        rw [hrep]
    | ok an =>
        rw [runTestTry_acting url l hinit hobs hg ha] at hrep
        simp only at hrep
        rw [hrep]
  refine ⟨?_, ?_, ?_⟩
  · rw [hperf]
    cases ro <;> rfl
  · rw [hperf]
    cases ro <;> rfl
  · intro t
    have h1 := (run_test_parts { env with gotoResult := .ok (some t) } url l
      obs freshState).2.2.1
    have h0 := (run_test_parts { env with gotoResult := .ok none } url l obs
      freshState).2.2.1
    have e1 := (run_test_parts { env with gotoResult := .ok (some t) } url l
      obs freshState).2.2.2
    have e0 := (run_test_parts { env with gotoResult := .ok none } url l obs
      freshState).2.2.2
    cases ha : env.analyzeResult with
    | error m =>
        rw [@runTestTry_analyze_fail { env with gotoResult := .ok (some t) }
          url l obs (some t) m hinit hobs rfl ha] at h1 e1
        rw [@runTestTry_analyze_fail { env with gotoResult := .ok none }
          url l obs none m hinit hobs rfl ha] at h0 e0
        simp only at h1 h0 e1 e0
        rw [← ha]
        refine ⟨?_, ?_, ?_⟩
        · rw [h1, h0]
        · rw [h1, h0]
        · rw [e1, e0]
    | ok an =>
        rw [@runTestTry_acting { env with gotoResult := .ok (some t) }
          url l obs (some t) an hinit hobs rfl ha] at h1 e1
        rw [@runTestTry_acting { env with gotoResult := .ok none }
          url l obs none an hinit hobs rfl ha] at h0 e0
        simp only at h1 h0 e1 e0
        rw [← ha]
        have hagree1 := contribsList_goto env (.ok (some t)) obs l 0
        have hagree0 := contribsList_goto env (.ok none) obs l 0
        refine ⟨?_, ?_, ?_⟩
        · rw [h1, h0]
          simp only [hagree1, hagree0]
          rfl
        · rw [h1, h0]
          simp only [hagree1, hagree0]
          rfl
        · rw [e1, e0]

/-- Witness for C8 at a concrete run whose navigation returns a response
with `responseEnd` 42, compared against the response-less variant. -/
theorem spec_c8_witness :
    perfGet (run_test envOk "https://x.test/" [] none
      freshState).report.performance "load_time" = some 120 ∧
    perfGet (run_test envOk "https://x.test/" [] none
      freshState).report.performance "response_time" = some 42 ∧
    (run_test { envOk with gotoResult := .ok (some 5) } "https://x.test/" []
        none freshState).report.errors =
      (run_test { envOk with gotoResult := .ok none } "https://x.test/" []
        none freshState).report.errors := by
  have h := spec_c8 envOk "https://x.test/" [] none (some 42) rfl
    (fun u => rfl) rfl
  exact ⟨h.1, h.2.1, (h.2.2 5).1⟩

end WebTestBot
